import Mathlib

/-!
Verification of the conversation-state machine and slot-extraction engine of
the AI booking assistant (files `app/booking_flow.py`, `app/chat_logic.py`).

The Python code is shallowly embedded: dictionaries with a fixed key set become
structures of `Option String` fields, the wall clock (`datetime.now()`) becomes
explicit parameters (an ordinal day number and microseconds since midnight),
and the external collaborators (the LLM reply, the database write, the email
send) become parameters of an `Env` record.  Python `re` scanning is embedded
by a small backtracking engine specialised to the character-class/repetition
patterns the source uses.
-/

namespace BookingAssistant

/-- The apostrophe character, used when building the source's message strings. -/
def apos : Char := Char.ofNat 39

/-- One-character string holding an apostrophe. -/
def sq : String := String.singleton apos

/-- The double-quote character. -/
def dq : Char := Char.ofNat 34

/-- Python `str.isspace` / the `\s` class for the ASCII range:
space, tab, newline, carriage return, vertical tab, form feed. -/
def pyIsSpace (c : Char) : Bool :=
  c = ' ' || c = Char.ofNat 9 || c = Char.ofNat 10 || c = Char.ofNat 13 ||
  c = Char.ofNat 11 || c = Char.ofNat 12

/-- ASCII lower-casing, as Python `str.lower` acts on ASCII text. -/
def pyLower (s : String) : String := String.mk (s.toList.map Char.toLower)

/-- Strip a class of characters from both ends of a list. -/
def stripList (p : Char → Bool) (l : List Char) : List Char :=
  ((l.dropWhile p).reverse.dropWhile p).reverse

/-- Python `str.strip()` (no argument): strip whitespace from both ends. -/
def pyStrip (s : String) : String := String.mk (stripList pyIsSpace s.toList)

/-- Python `str.strip(ch)` for a single character argument. -/
def pyStripChar (c : Char) (s : String) : String :=
  String.mk (stripList (fun x => x = c) s.toList)

/-- Does the first list occur as a prefix of the second? -/
def listStartsWith : List Char → List Char → Bool
  | [], _ => true
  | _ :: _, [] => false
  | a :: as, b :: bs => a = b && listStartsWith as bs

/-- Does `needle` occur as a contiguous sublist of `hay`?  (Python `in` on strings.) -/
def listIsInfix (needle hay : List Char) : Bool :=
  match hay with
  | [] => needle.isEmpty
  | _ :: t => listStartsWith needle hay || listIsInfix needle t

/-- Python substring test `needle in hay`. -/
def strContains (hay needle : String) : Bool := listIsInfix needle.toList hay.toList

/-- Python `any(w in s for w in ws)`. -/
def containsAnyOf (ws : List String) (s : String) : Bool := ws.any (fun w => strContains s w)

/-- Numeric value of a list of ASCII digits. -/
def natFromDigits (l : List Char) : Nat :=
  l.foldl (fun a c => a * 10 + (c.toNat - 48)) 0

/-- Python `int(s)`: strip whitespace, optional single sign, then ASCII digits.
(The underscore digit separator Python also accepts is not modelled; no input
in this development contains one.) -/
def pyInt (s : String) : Option Int :=
  let t := (pyStrip s).toList
  let signDigits : Int × List Char :=
    match t with
    | '+' :: rest => (1, rest)
    | '-' :: rest => (-1, rest)
    | l => (1, l)
  if signDigits.2 ≠ [] ∧ signDigits.2.all Char.isDigit then
    some (signDigits.1 * (natFromDigits signDigits.2 : Int))
  else none

/-- Zero-pad a number to two digits, as Python `f"{n:02d}"` for `n ≥ 0`. -/
def pad2 (n : Nat) : String := if n < 10 then "0" ++ toString n else toString n

/-- Zero-pad a number to four digits, as Python `f"{n:04d}"` / `%Y` output. -/
def pad4 (n : Nat) : String :=
  if n < 10 then "000" ++ toString n
  else if n < 100 then "00" ++ toString n
  else if n < 1000 then "0" ++ toString n
  else toString n

/-- Helper for `pyTitle`: the flag records whether the previous character was
a letter. -/
def pyTitleAux : Bool → List Char → List Char
  | _, [] => []
  | prevAlpha, c :: t =>
    if c.isAlpha then
      (if prevAlpha then c.toLower else c.toUpper) :: pyTitleAux true t
    else c :: pyTitleAux false t

/-- Python `str.title()` on ASCII text: a letter following a non-letter is
upper-cased, a letter following a letter is lower-cased. -/
def pyTitle (s : String) : String := String.mk (pyTitleAux false s.toList)

/-- Helper for `pySplitWs`, accumulating the current word reversed. -/
def pySplitWsAux : List Char → List Char → List String
  | [], cur => if cur.isEmpty then [] else [String.mk cur.reverse]
  | c :: t, cur =>
    if pyIsSpace c then
      if cur.isEmpty then pySplitWsAux t [] else String.mk cur.reverse :: pySplitWsAux t []
    else pySplitWsAux t (c :: cur)

/-- Python `str.split()` with no argument: split on whitespace runs, no empties. -/
def pySplitWs (s : String) : List String := pySplitWsAux s.toList []

/-- Helper for `pySplitOnChar`, accumulating the current piece reversed. -/
def pySplitOnCharAux (c : Char) : List Char → List Char → List String
  | [], cur => [String.mk cur.reverse]
  | x :: t, cur =>
    if x = c then String.mk cur.reverse :: pySplitOnCharAux c t []
    else pySplitOnCharAux c t (x :: cur)

/-- Python `s.split(c)` for a one-character separator: split at every
occurrence, keeping empty pieces. -/
def pySplitOnChar (c : Char) (s : String) : List String := pySplitOnCharAux c s.toList []

/-- Helper for `pyReplace`; the fuel starts at the string length and bounds
the recursion (a non-empty pattern consumes at least one character). -/
def pyReplaceAux (pat rep : List Char) : Nat → List Char → List Char
  | 0, s => s
  | Nat.succ fuel, s =>
    match s with
    | [] => []
    | x :: t =>
      if pat ≠ [] ∧ listStartsWith pat s then
        rep ++ pyReplaceAux pat rep fuel (s.drop pat.length)
      else x :: pyReplaceAux pat rep fuel t

/-- Python `s.replace(pat, rep)`: replace non-overlapping occurrences left to
right (for a non-empty pattern). -/
def pyReplace (s pat rep : String) : String :=
  String.mk (pyReplaceAux pat.toList rep.toList s.toList.length s.toList)

/-- Is every character an ASCII digit, with the string non-empty?
(Python `str.isdigit` on ASCII text.) -/
def pyIsDigitStr (s : String) : Bool := s.toList ≠ [] && s.toList.all Char.isDigit

/-- Is every character an ASCII letter, with the string non-empty?
(Python `str.isalpha` on ASCII text.) -/
def pyIsAlphaStr (s : String) : Bool := s.toList ≠ [] && s.toList.all Char.isAlpha

/-! ### A small backtracking regular-expression engine

Just enough to embed the patterns of `booking_flow.py`: character classes,
bounded greedy repetition, concatenation, and the word boundary `\b`.
Alternation is not needed (the `%Y-%m-%d` parse is embedded directly). -/

/-- Python's `\w` on ASCII text: letters, digits, underscore. -/
def wordChar (c : Char) : Bool := c.isAlphanum || c = '_'

/-- Regular-expression fragments used by the source's patterns. -/
inductive RE where
  /-- a single character of a class -/
  | one (p : Char → Bool)
  /-- greedy repetition of a class, at least `lo` times, at most `hi` when given -/
  | rep (p : Char → Bool) (lo : Nat) (hi : Option Nat)
  /-- the word boundary `\b` -/
  | bnd
  /-- concatenation -/
  | seq (a b : RE)

/-- Length of the maximal prefix of `xs` inside the class `p`. -/
def classRunLen (p : Char → Bool) : List Char → Nat
  | [] => 0
  | c :: t => if p c then classRunLen p t + 1 else 0

/-- The candidate consumption counts for a greedy bounded repetition,
longest first (the backtracking order of Python's engine). -/
def repCounts (p : Char → Bool) (lo : Nat) (hi : Option Nat) (xs : List Char) : List Nat :=
  let maxRun := classRunLen p xs
  let top := match hi with | none => maxRun | some h => min h maxRun
  (List.range (top + 1 - lo)).map (fun i => top - i)

/-- All ways a fragment can match a prefix of `xs`, in backtracking priority
order.  Each result is (consumed characters, last character seen, rest).
`prev` is the character just before the current position, for `\b`. -/
def matchRE : RE → Option Char → List Char → List (List Char × Option Char × List Char)
  | .one p, _, xs =>
    match xs with
    | [] => []
    | c :: rest => if p c then [([c], some c, rest)] else []
  | .bnd, prev, xs =>
    let prevW := match prev with | none => false | some c => wordChar c
    let nextW := match xs with | [] => false | c :: _ => wordChar c
    if prevW ≠ nextW then [([], prev, xs)] else []
  | .rep p lo hi, prev, xs =>
    (repCounts p lo hi xs).map (fun k =>
      let consumed := xs.take k
      let prevAfter := match consumed.getLast? with | some c => some c | none => prev
      (consumed, prevAfter, xs.drop k))
  | .seq a b, prev, xs =>
    (matchRE a prev xs).flatMap (fun r =>
      (matchRE b r.2.1 r.2.2).map (fun r2 => (r.1 ++ r2.1, r2.2.1, r2.2.2)))

/-- One scanning step of `re.findall`: at each position take the
highest-priority match if any (advancing past it), else move one character. -/
def findallAux (r : RE) : Option Char → List Char → Nat → List String
  | _, _, 0 => []
  | prev, xs, Nat.succ fuel =>
    match matchRE r prev xs with
    | (c :: cs, pa, rest) :: _ => String.mk (c :: cs) :: findallAux r pa rest fuel
    | _ =>
      match xs with
      | [] => []
      | c :: rest => findallAux r (some c) rest fuel

/-- Python `re.findall(pattern, s)` for the patterns in use (none of which can
match the empty string). -/
def reFindall (r : RE) (s : String) : List String :=
  findallAux r none s.toList (s.toList.length + 1)

/-- Does the pattern match at the very start of the string (`re.match` with the
source's `^...$` anchors)?  Python's `$` also accepts a single trailing
newline. -/
def reMatchesAnchored (r : RE) (s : String) : Bool :=
  (matchRE r none s.toList).any (fun res => res.2.2 = [] ∨ res.2.2 = [Char.ofNat 10])

/-- The local-part class `[A-Za-z0-9._%+-]` of the email patterns. -/
def emailLocalChar (c : Char) : Bool :=
  c.isAlphanum || c = '.' || c = '_' || c = '%' || c = '+' || c = '-'

/-- The domain class `[A-Za-z0-9.-]` of the email patterns. -/
def emailDomainChar (c : Char) : Bool := c.isAlphanum || c = '.' || c = '-'

/-- The top-level-domain class `[A-Z|a-z]` of the email patterns — faithfully
including the `|` character that the source's class accidentally contains. -/
def emailTldChar (c : Char) : Bool := c.isAlpha || c = '|'

/-- `\b[A-Za-z0-9._%+-]+@[A-Za-z0-9.-]+\.[A-Z|a-z]{2,}\b` (extraction). -/
def emailFindRE : RE :=
  .seq .bnd (.seq (.rep emailLocalChar 1 none)
    (.seq (.one (fun c => c = '@')) (.seq (.rep emailDomainChar 1 none)
      (.seq (.one (fun c => c = '.')) (.seq (.rep emailTldChar 2 none) .bnd)))))

/-- `^[A-Za-z0-9._%+-]+@[A-Za-z0-9.-]+\.[A-Z|a-z]{2,}$` (validation), without
the anchors, which `reMatchesAnchored` supplies. -/
def emailFullRE : RE :=
  .seq (.rep emailLocalChar 1 none)
    (.seq (.one (fun c => c = '@')) (.seq (.rep emailDomainChar 1 none)
      (.seq (.one (fun c => c = '.')) (.rep emailTldChar 2 none))))

/-- `\b\d{10,15}\b` (phone extraction). -/
def phoneFindRE : RE := .seq .bnd (.seq (.rep Char.isDigit 10 (some 15)) .bnd)

/-- `\b\d{4}-\d{2}-\d{2}\b` (date extraction). -/
def dateFindRE : RE :=
  .seq .bnd (.seq (.rep Char.isDigit 4 (some 4))
    (.seq (.one (fun c => c = '-')) (.seq (.rep Char.isDigit 2 (some 2))
      (.seq (.one (fun c => c = '-')) (.seq (.rep Char.isDigit 2 (some 2)) .bnd)))))

/-- `\b\d{1,2}:\d{2}\b` (time extraction). -/
def timeFindRE : RE :=
  .seq .bnd (.seq (.rep Char.isDigit 1 (some 2))
    (.seq (.one (fun c => c = ':')) (.seq (.rep Char.isDigit 2 (some 2)) .bnd)))

/-! ### Data model

`booking_data` is a Python dict whose keys range over the six required fields
plus the derived `pricing`; it is embedded as a structure of `Option String`
fields, `none` meaning the key is absent. -/

/-- The mutable accumulator `booking_data` of the source
(`BookingFlow.handle_booking_intent`). -/
structure Draft where
  name : Option String := none
  email : Option String := none
  phone : Option String := none
  booking_type : Option String := none
  date : Option String := none
  time : Option String := none
  pricing : Option String := none
deriving DecidableEq, Repr

/-- The empty dict `{}`. -/
def emptyDraft : Draft := {}

/-- The dict returned by `BookingFlow._extract_booking_info` — it can only
ever hold these six keys, never `pricing`. -/
structure Extracted where
  email : Option String := none
  phone : Option String := none
  date : Option String := none
  time : Option String := none
  name : Option String := none
  booking_type : Option String := none
deriving DecidableEq, Repr

/-- `self.required_fields` of `BookingFlow.__init__`. -/
def requiredFields : List String := ["name", "email", "phone", "booking_type", "date", "time"]

/-- Dict access `booking_data[f]` / `booking_data.get(f)` by field name. -/
def getField (d : Draft) (f : String) : Option String :=
  if f = "name" then d.name
  else if f = "email" then d.email
  else if f = "phone" then d.phone
  else if f = "booking_type" then d.booking_type
  else if f = "date" then d.date
  else if f = "time" then d.time
  else if f = "pricing" then d.pricing
  else none

/-- Python truthiness test `field not in booking_data or not booking_data[field]`. -/
def isMissingVal : Option String → Bool
  | none => true
  | some s => s.isEmpty

/-- One entry of `self.service_pricing`. -/
structure ServiceInfo where
  price : Nat
  icon : String
  message : String
deriving DecidableEq, Repr

/-- `self.service_pricing` of `BookingFlow.__init__` (keys in source order). -/
def servicePricing : List (String × ServiceInfo) :=
  [("Doctor Appointment", ⟨100, "🏥", "Your health is our priority!"⟩),
   ("Salon Service", ⟨50, "💇", "Get ready to look fabulous!"⟩),
   ("Hotel Reservation", ⟨150, "🏨", "Enjoy your comfortable stay!"⟩),
   ("Event Booking", ⟨200, "🎉", "Let" ++ sq ++ "s make your event memorable!"⟩),
   ("Fitness Class", ⟨30, "💪", "Time to get fit and healthy!"⟩),
   ("Restaurant Reservation", ⟨0, "🍽️", "Bon appétit! Enjoy your meal!"⟩),
   ("Travel Booking", ⟨500, "✈️", "Have an amazing journey!"⟩),
   ("Spa Treatment", ⟨120, "🧖", "Relax and rejuvenate!"⟩),
   ("Consultation", ⟨80, "📋", "We look forward to helping you!"⟩)]

/-- `self.service_pricing.get(key, {})` followed by `.get('price', 0)`. -/
def servicePriceOf (bt : String) : Nat :=
  match servicePricing.lookup bt with
  | some info => info.price
  | none => 0

/-- The keyword table of `BookingFlow._extract_booking_type` (source order). -/
def serviceKeywords : List (String × List String) :=
  [("Doctor Appointment",
    ["doctor", "medical", "physician", "healthcare", "clinic", "checkup", "consultation",
     "appointment"]),
   ("Salon Service", ["salon", "haircut", "hair", "beauty", "manicure", "pedicure", "styling"]),
   ("Hotel Reservation", ["hotel", "room", "accommodation", "stay", "resort", "lodge"]),
   ("Event Booking", ["event", "party", "celebration", "wedding", "conference", "meeting"]),
   ("Fitness Class", ["fitness", "gym", "workout", "exercise", "yoga", "training", "class"]),
   ("Restaurant Reservation", ["restaurant", "dining", "dinner", "lunch", "table", "food", "eat"]),
   ("Travel Booking", ["travel", "trip", "tour", "vacation", "flight", "ticket", "journey"]),
   ("Spa Treatment", ["spa", "massage", "treatment", "therapy", "relaxation", "wellness"]),
   ("Consultation", ["consult", "advice", "guidance", "counseling"])]

/-! ### Proleptic-Gregorian day arithmetic

`datetime` values at midnight are embedded as Python ordinals
(`date.toordinal`, with 0001-01-01 = 1). -/

/-- Gregorian leap-year test. -/
def isLeapYear (y : Nat) : Bool := y % 4 = 0 ∧ (y % 100 ≠ 0 ∨ y % 400 = 0)

/-- Number of days in a month (month 1–12). -/
def daysInMonth (y m : Nat) : Nat :=
  if m = 2 then (if isLeapYear y then 29 else 28)
  else if m = 4 ∨ m = 6 ∨ m = 9 ∨ m = 11 then 30
  else 31

/-- Days in the given year strictly before month `m`. -/
def daysBeforeMonth (y m : Nat) : Nat :=
  let base :=
    if m = 1 then 0 else if m = 2 then 31 else if m = 3 then 59 else if m = 4 then 90
    else if m = 5 then 120 else if m = 6 then 151 else if m = 7 then 181
    else if m = 8 then 212 else if m = 9 then 243 else if m = 10 then 273
    else if m = 11 then 304 else 334
  if 2 < m ∧ isLeapYear y then base + 1 else base

/-- Python `date(y, m, d).toordinal()` (0001-01-01 = 1). -/
def dateOrdinal (y m d : Nat) : Nat :=
  365 * (y - 1) + (y - 1) / 4 - (y - 1) / 100 + (y - 1) / 400 + daysBeforeMonth y m + d

/-- Inverse of `dateOrdinal` (Python `date.fromordinal`), by the standard
civil-from-days computation over an era of 146097 days anchored at
0000-03-01. -/
def ordinalToYMD (ord : Nat) : Nat × Nat × Nat :=
  let z := ord + 305
  let era := z / 146097
  let doe := z % 146097
  let yoe := (doe - doe / 1460 + doe / 36524 - doe / 146096) / 365
  let doy := doe - (365 * yoe + yoe / 4 - yoe / 100)
  let mp := (5 * doy + 2) / 153
  let d := doy - (153 * mp + 2) / 5 + 1
  let m := if mp < 10 then mp + 3 else mp - 9
  let y := yoe + era * 400 + (if m ≤ 2 then 1 else 0)
  (y, m, d)

/-- Python `date.strftime('%Y-%m-%d')` of an ordinal. -/
def formatOrdinal (ord : Nat) : String :=
  let ymd := ordinalToYMD ord
  pad4 ymd.1 ++ "-" ++ pad2 ymd.2.1 ++ "-" ++ pad2 ymd.2.2

/-- Greedy one-or-two-digit numeric field, as the `%m` / `%d` strptime
fragments match it: two digits when available, else one. -/
def parseTwoDigitField : List Char → Option (Nat × List Char)
  | a :: b :: rest =>
    if a.isDigit && b.isDigit then some (natFromDigits [a, b], rest)
    else if a.isDigit then some (natFromDigits [a], b :: rest)
    else none
  | [a] => if a.isDigit then some (natFromDigits [a], []) else none
  | [] => none

/-- Python `datetime.strptime(s, '%Y-%m-%d')` together with the `datetime`
constructor checks: exactly four digits of year (value ≥ 1), one or two digits
of month in 1–12 (a two-digit month may be zero-padded), likewise for the day,
which must exist in the month; the whole string must be consumed.  Returns
`(year, month, day)`. -/
def parseDateYMD (s : String) : Option (Nat × Nat × Nat) :=
  match s.toList with
  | y1 :: y2 :: y3 :: y4 :: '-' :: rest =>
    if (y1.isDigit && y2.isDigit && y3.isDigit && y4.isDigit : Bool) then
      let y := natFromDigits [y1, y2, y3, y4]
      match parseTwoDigitField rest with
      | some (m, '-' :: rest2) =>
        match parseTwoDigitField rest2 with
        | some (d, []) =>
          if 1 ≤ y ∧ 1 ≤ m ∧ m ≤ 12 ∧ 1 ≤ d ∧ d ≤ daysInMonth y m then some (y, m, d)
          else none
        | _ => none
      | _ => none
    else none
  | _ => none

/-! ### Field extraction (`BookingFlow._extract_booking_info` and helpers)

The single external LLM call of `_extract_with_llm` is embedded as an
`Option String` parameter holding the raw reply content of this turn's call
(`none` = the call raised). -/

/-- The reply post-processing of `BookingFlow._extract_with_llm`:
`response.content.strip().strip('"').strip("'")`, accepted only when
non-empty, not the `NOT_FOUND` sentinel, and under 100 characters; a raised
call (`none`) yields `none`. -/
def extractWithLLM (llmReply : Option String) : Option String :=
  match llmReply with
  | none => none
  | some content =>
    let result := pyStripChar apos (pyStripChar dq (pyStrip content))
    if result ≠ "" ∧ result ≠ "NOT_FOUND" ∧ result.length < 100 then some result else none

/-- `BookingFlow._extract_booking_type`: first keyword table match in source
order, else the LLM fallback. -/
def extractBookingType (llmReply : Option String) (text : String) : Option String :=
  let textLower := pyStrip (pyLower text)
  match serviceKeywords.find? (fun entry => entry.2.any (fun k => strContains textLower k)) with
  | some entry => some entry.1
  | none => extractWithLLM llmReply

/-- The character/substring exclusion list of the name heuristic:
`['@', '.com', ':', '-', '0', ..., '9']` (note `'.com'` is a substring, the
rest are single characters; Python `in` treats both uniformly). -/
def nameExclusions : List String :=
  ["@", ".com", ":", "-", "0", "1", "2", "3", "4", "5", "6", "7", "8", "9"]

/-- The booking-action words that disqualify an utterance from being a name. -/
def bookingPhrases : List String :=
  ["book", "appointment", "reservation", "schedule", "want", "need", "service"]

/-- The name heuristic inside `_extract_booking_info` (the body guarded by
`'name' not in existing_data`). -/
def extractName (userMessage : String) : Option String :=
  if (pySplitWs userMessage).length ≤ 5 then
    let cleanMsg := pyStrip userMessage
    if cleanMsg ≠ "" ∧ ¬ containsAnyOf nameExclusions cleanMsg then
      if ¬ containsAnyOf bookingPhrases (pyLower cleanMsg) then
        if cleanMsg.length < 50 ∧
            pyIsAlphaStr (pyReplace (pyReplace cleanMsg " " "") "-" "") then
          some (pyTitle cleanMsg)
        else none
      else none
    else none
  else none

/-- The time re-emission inside `_extract_booking_info`:
`f"{int(parts[0]):02d}:{parts[1]}"` applied to the first regex match. -/
def reformatExtractedTime (t : String) : String :=
  let parts := pySplitOnChar ':' t
  pad2 (((pyInt ((parts.get? 0).getD "")).getD 0).toNat) ++ ":" ++ (parts.get? 1).getD ""

/-- `BookingFlow._extract_booking_info(user_message, existing_data)`.
Each field is extracted only when absent from `existing_data`. -/
def extractBookingInfo (llmReply : Option String) (userMessage : String) (existing : Draft) :
    Extracted :=
  let email :=
    match reFindall emailFindRE userMessage with
    | [] => none
    | e :: _ => if existing.email.isSome then none else some e
  let phone :=
    match reFindall phoneFindRE userMessage with
    | [] => none
    | p :: _ => if existing.phone.isSome then none else some p
  let date :=
    match reFindall dateFindRE userMessage with
    | [] => none
    | d :: _ => if existing.date.isSome then none else some d
  let time :=
    match reFindall timeFindRE userMessage with
    | [] => none
    | t :: _ => if existing.time.isSome then none else some (reformatExtractedTime t)
  let name := if existing.name.isSome then none else extractName userMessage
  let bt :=
    if existing.booking_type.isSome then none
    else
      match extractBookingType llmReply userMessage with
      | some b => if b = "" then none else some b
      | none => none
  { email := email, phone := phone, date := date, time := time, name := name,
    booking_type := bt }

/-! ### Field validation (`BookingFlow._validate_extracted_data`)

The wall clock is passed explicitly: `today` is the ordinal of the current
day (`datetime.now()` at midnight) and `nowMicros` the microseconds elapsed
since that midnight. -/

/-- The `if 'email' in extracted_data` branch: anchored match of the email
pattern, else an error. -/
def validateEmailField (email : String) : Option String :=
  if reMatchesAnchored emailFullRE email then none
  else some (sq ++ email ++ sq ++ " is not valid. Use format: name@example.com")

/-- `re.sub(r'[\s\-\(\)\+]', '', value)` of the phone branch. -/
def stripPhone (v : String) : String :=
  String.mk (v.toList.filter (fun c =>
    ¬ (pyIsSpace c ∨ c = '-' ∨ c = '(' ∨ c = ')' ∨ c = '+')))

/-- The `if 'phone' in extracted_data` branch.  Note the error message embeds
the original `extracted_data['phone']`, not the stripped string. -/
def validatePhoneField (v : String) : Option String :=
  let phone := stripPhone v
  if ¬ pyIsDigitStr phone ∨ phone.length < 10 ∨ phone.length > 15 then
    some (sq ++ v ++ sq ++ " is not valid. Provide 10-15 digits")
  else none

/-- The `if 'date' in extracted_data` branch.  The too-far check runs after
the past check and overwrites `errors['date']`, so it is examined first
here. -/
def validateDateField (today : Nat) (dateStr : String) : Option String :=
  match parseDateYMD dateStr with
  | none => some (sq ++ dateStr ++ sq ++ " is invalid. Use YYYY-MM-DD (e.g., 2025-01-25)")
  | some (y, m, d) =>
    let ord := dateOrdinal y m d
    if ord > today + 365 then
      some (sq ++ dateStr ++ sq ++ " is too far ahead. Book within the next year")
    else if ord < today then
      some (sq ++ dateStr ++ sq ++ " is " ++ toString (today - ord) ++
        " day(s) in the past. Choose a future date")
    else none

/-- The `if 'time' in extracted_data` branch.  Returns the error (if any) and
the canonicalised value written back into `extracted_data['time']` (when the
reformat line executed).  `extDate`/`existDate` are `extracted_data.get('date')`
and `existing_data.get('date')`. -/
def validateTimeField (today nowMicros : Nat) (timeStr : String)
    (extDate existDate : Option String) : Option String × Option String :=
  if strContains timeStr ":" then
    let parts := pySplitOnChar ':' timeStr
    match pyInt ((parts.get? 0).getD ""), pyInt ((parts.get? 1).getD "") with
    | some hours, some mins =>
      if hours < 0 ∨ hours > 23 then
        (some (sq ++ timeStr ++ sq ++ " has invalid hours. Use 00-23"), none)
      else if mins < 0 ∨ mins > 59 then
        (some (sq ++ timeStr ++ sq ++ " has invalid minutes. Use 00-59"), none)
      else
        let canonical := pad2 hours.toNat ++ ":" ++ pad2 mins.toNat
        -- `date_str = extracted_data.get('date') or existing_data.get('date')`,
        -- guarded by key presence; a failed strptime (or a `None` date) is
        -- swallowed by the inner bare `except: pass`.
        let err :=
          if extDate.isSome ∨ existDate.isSome then
            let dateVal : Option String :=
              match extDate with
              | some ds => if ds = "" then existDate else some ds
              | none => existDate
            match dateVal with
            | none => none
            | some ds =>
              match parseDateYMD ds with
              | none => none
              | some (y, m, d) =>
                if dateOrdinal y m d = today ∧
                    (hours.toNat * 3600 + mins.toNat * 60) * 1000000 < nowMicros then
                  some (sq ++ canonical ++ sq ++ " has passed. Choose a future time")
                else none
          else none
        (err, some canonical)
    | _, _ =>
      (some (sq ++ timeStr ++ sq ++ " is invalid. Use HH:MM format (e.g., 14:30)"), none)
  else
    (some (sq ++ timeStr ++ sq ++ " is invalid. Use HH:MM (e.g., 14:30)"), none)

/-- The `if 'name' in extracted_data` branch. -/
def validateNameField (nameVal : String) : Option String :=
  let name := pyStrip nameVal
  if name.length < 2 then some "Name is too short. Provide your full name"
  else if name.length > 100 then some "Name is too long"
  else none

/-- `BookingFlow._validate_extracted_data(extracted_data, existing_data)`.
Returns the `errors` dict, as a field→message list in insertion order
(email, phone, date, time, name), together with `extracted_data` as mutated
by the time canonicalisation. -/
def validateExtracted (today nowMicros : Nat) (ext : Extracted) (existing : Draft) :
    List (String × String) × Extracted :=
  let emailErr := match ext.email with | none => none | some e => validateEmailField e
  let phoneErr := match ext.phone with | none => none | some p => validatePhoneField p
  let dateErr := match ext.date with | none => none | some d => validateDateField today d
  let timeRes :=
    match ext.time with
    | none => (none, ext)
    | some t =>
      let r := validateTimeField today nowMicros t ext.date existing.date
      (r.1, match r.2 with | some canonical => { ext with time := some canonical } | none => ext)
  let nameErr := match ext.name with | none => none | some n => validateNameField n
  let errs :=
    (match emailErr with | some e => [("email", e)] | none => []) ++
    (match phoneErr with | some e => [("phone", e)] | none => []) ++
    (match dateErr with | some e => [("date", e)] | none => []) ++
    (match timeRes.1 with | some e => [("time", e)] | none => []) ++
    (match nameErr with | some e => [("name", e)] | none => [])
  (errs, timeRes.2)

/-! ### The booking state machine (`BookingFlow.handle_booking_intent`) -/

/-- The external collaborators and wall clock of one turn, passed explicitly:
`today`/`nowMicros` embed `datetime.now()`, `llmReply` the raw LLM reply of
`_extract_with_llm` (if called), `db` the `BookingDatabase.create_booking`
call (`Except.error` = raised), `emailSent` the `send_booking_email` result. -/
structure Env where
  today : Nat
  nowMicros : Nat
  llmReply : Option String
  db : Draft → Except String String
  emailSent : Bool

/-- The tuple returned by `handle_booking_intent`, plus an instrumentation
counter of how many times `_save_booking` was invoked during the turn. -/
structure TurnResult where
  response : String
  draft : Draft
  awaiting : Bool
  complete : Bool
  saveCalls : Nat
deriving Repr

/-- The affirmative keyword set of `_handle_confirmation` (checked first). -/
def affirmativeWords : List String :=
  ["yes", "confirm", "correct", "ok", "okay", "sure", "yep", "yeah"]

/-- The negative keyword set of `_handle_confirmation`. -/
def negativeWords : List String := ["no", "cancel", "stop", "restart", "nope"]

/-- `BookingFlow._save_booking`: re-validate the six required fields, the
email shape and the date parse, then write through the database collaborator;
any raised exception becomes `(False, str(e))`. -/
def saveBooking (db : Draft → Except String String) (d : Draft) : Bool × String :=
  match requiredFields.find? (fun f => isMissingVal (getField d f)) with
  | some f => (false, "Missing: " ++ f)
  | none =>
    if ¬ reMatchesAnchored emailFullRE (d.email.getD "") then (false, "Invalid email")
    else
      match parseDateYMD (d.date.getD "") with
      | none => (false, "Invalid date")
      | some _ =>
        match db d with
        | .ok bookingId => (true, bookingId)
        | .error e => (false, e)

/-- Python `dict.get` rendering of a possibly-absent value inside an f-string
(`None` prints as `"None"`). -/
def optVal (o : Option String) : String := o.getD "None"

/-- The `━`-rule separator line used in the source's messages. -/
def sepLine : String := "━━━━━━━━━━━━━━━━━━━━━━━━━━"

/-- `$<price>` for a positive price, `Free` for zero — the rendering used both
for the pricing auto-fill and the service list. -/
def renderPrice (p : Nat) : String := if p > 0 then "$" ++ toString p else "Free"

/-- The success response of `_handle_confirmation` (affirmative branch). -/
def confirmedResponse (emailSent : Bool) (d : Draft) (bookingId : String) : String :=
  let serviceType := d.booking_type.getD ""
  let info := servicePricing.lookup serviceType
  let icon := match info with | some i => i.icon | none => "🎯"
  let specialMsg := match info with | some i => i.message | none => "Thank you for booking!"
  "🎉 **BOOKING CONFIRMED!**\n\n" ++
  sepLine ++ "\n\n" ++
  "📋 **Booking ID:** `" ++ bookingId ++ "`\n" ++
  icon ++ " **Service:** " ++ serviceType ++ "\n" ++
  "📅 **Date:** " ++ optVal d.date ++ " at " ++ optVal d.time ++ "\n" ++
  "💰 **Total:** " ++ optVal d.pricing ++ "\n\n" ++
  sepLine ++ "\n\n" ++
  (if emailSent then
    "✅ **Confirmation email sent to:**\n   " ++ optVal d.email ++ "\n\n"
  else
    "⚠️ *Email could not be sent, but booking is saved*\n\n") ++
  "💫 **" ++ specialMsg ++ "**\n\n" ++
  "🌟 *Your booking is confirmed. You" ++ sq ++
  "re all set! No hassle, everything handled.*\n\n" ++
  "Need anything else? Just ask! 😊"

/-- The restart prompt of the negative branch. -/
def restartResponse : String :=
  "No problem! Let" ++ sq ++ "s start fresh. What service would you like to book?"

/-- The re-prompt of the fall-through branch. -/
def repromptResponse : String :=
  "Please reply **" ++ sq ++ "yes" ++ sq ++ "** to confirm or **" ++ sq ++ "no" ++ sq ++
  "** to restart."

/-- `BookingFlow._handle_confirmation(user_message, booking_data)`. -/
def handleConfirmation (env : Env) (userMessage : String) (bookingData : Draft) : TurnResult :=
  let userLower := pyStrip (pyLower userMessage)
  if containsAnyOf affirmativeWords userLower then
    let saved := saveBooking env.db bookingData
    if saved.1 then
      { response := confirmedResponse env.emailSent bookingData saved.2,
        draft := emptyDraft, awaiting := false, complete := true, saveCalls := 1 }
    else
      { response := "❌ Error: " ++ saved.2 ++ "\n\nPlease try again.",
        draft := emptyDraft, awaiting := false, complete := true, saveCalls := 1 }
  else if containsAnyOf negativeWords userLower then
    { response := restartResponse, draft := emptyDraft, awaiting := false,
      complete := false, saveCalls := 0 }
  else
    { response := repromptResponse, draft := bookingData, awaiting := true,
      complete := false, saveCalls := 0 }

/-- `booking_data.update(extracted_data)`: an extracted value wins, the rest
of the draft survives; `pricing` is untouched since `Extracted` has no such
key. -/
def mergeDraft (d : Draft) (e : Extracted) : Draft :=
  { name := match e.name with | some v => some v | none => d.name,
    email := match e.email with | some v => some v | none => d.email,
    phone := match e.phone with | some v => some v | none => d.phone,
    booking_type := match e.booking_type with | some v => some v | none => d.booking_type,
    date := match e.date with | some v => some v | none => d.date,
    time := match e.time with | some v => some v | none => d.time,
    pricing := d.pricing }

/-- The pricing auto-fill of `handle_booking_intent` (lines 69–76): when
`booking_type` is present and `pricing` is not, derive it from the catalog
(price defaulting to 0 for an unknown service). -/
def autoFillPricing (m : Draft) : Draft :=
  match m.booking_type with
  | some bt =>
    if m.pricing.isSome then m
    else { m with pricing := some (renderPrice (servicePriceOf bt)) }
  | none => m

/-- `[field for field in self.required_fields if field not in booking_data or
not booking_data[field]]`. -/
def missingFields (d : Draft) : List String :=
  requiredFields.filter (fun f => isMissingVal (getField d f))

/-- The error response built by `handle_booking_intent` when validation
fails: a bulleted list of every collected error, then a request for the first
failing field by name. -/
def formatValidationErrors (errs : List (String × String)) : String :=
  "⚠️ I found some issues:\n\n" ++
  String.join (errs.map (fun p =>
    "• **" ++ pyTitle (pyReplace p.1 "_" " ") ++ "**: " ++ p.2 ++ "\n")) ++
  "\nPlease provide the correct " ++ pyReplace ((errs.map Prod.fst).headD "") "_" " " ++ "."

/-- The emoji map of `_ask_for_missing_info` (default `•`). -/
def emojiFor (f : String) : String :=
  (([("name", "👤"), ("email", "📧"), ("phone", "📱"), ("booking_type", "🎯"),
     ("date", "📅"), ("time", "⏰"), ("pricing", "💰")] : List (String × String)).lookup f).getD "•"

/-- The service list printed by the booking-type question. -/
def serviceListLines : String :=
  String.join (servicePricing.map (fun p =>
    p.2.icon ++ " **" ++ p.1 ++ "** - " ++ renderPrice p.2.price ++ "\n"))

/-- The body of `_ask_for_missing_info` past the all-missing short-circuit:
progress summary of collected fields (required-field order) followed by the
question for the first missing field.  The Streamlit side-panel widgets the
source also renders are UI collaborators and carry no returned text. -/
def askMissingCore (today : Nat) (missing : List String) (d : Draft) : String :=
  let field := missing.headD ""
  let collected := requiredFields.filter (fun f =>
    ¬ isMissingVal (getField d f) ∧ f ≠ "pricing")
  let summary :=
    if collected.isEmpty then ""
    else
      "✅ **Information collected:**\n" ++
      String.join (collected.map (fun f =>
        emojiFor f ++ " " ++ pyTitle (pyReplace f "_" " ") ++ ": **" ++
        optVal (getField d f) ++ "**\n")) ++ "\n"
  let question :=
    if field = "name" then "What" ++ sq ++ "s your name?"
    else if field = "email" then
      "What" ++ sq ++ "s your email address?\n📧 *Example: john.doe@gmail.com*"
    else if field = "phone" then
      "What" ++ sq ++ "s your phone number?\n📱 *Example: 9876543210*"
    else if field = "booking_type" then
      "What service would you like?\n\n**Available Services:**\n" ++ serviceListLines ++
      "\n💡 *Type the service name (e.g., " ++ sq ++ "Doctor" ++ sq ++ ", " ++ sq ++
      "Salon" ++ sq ++ ")*"
    else if field = "date" then
      "What date?\n\n📅 **Format:** YYYY-MM-DD\n" ++
      "**Quick picks:**\n• Today: `" ++ formatOrdinal today ++ "`\n• Tomorrow: `" ++
      formatOrdinal (today + 1) ++ "`\n"
    else if field = "time" then
      "What time?\n\n⏰ **Format:** HH:MM (24-hour)\n" ++
      "**Examples:** `09:00`, `14:30`, `18:00`\n"
    else "Please provide " ++ pyReplace field "_" " " ++ "."
  summary ++ question

/-- `BookingFlow._ask_for_missing_info(missing_fields, booking_data)`.  The
`field == 'pricing'` self-call is unrolled once: `required_fields` never
contains `pricing`, so the filtered list's head cannot be `pricing` again. -/
def askForMissingInfo (today : Nat) (missing : List String) (d : Draft) : String :=
  if missing.length = requiredFields.length then
    "Great! Let" ++ sq ++ "s make a booking. What" ++ sq ++ "s your name?"
  else
    askMissingCore today
      (if missing.headD "" = "pricing" then missing.filter (fun f => f ≠ "pricing") else missing)
      d

/-- `BookingFlow._generate_confirmation_message(booking_data)`. -/
def generateConfirmationMessage (d : Draft) : String :=
  let info := servicePricing.lookup (d.booking_type.getD "")
  let icon := match info with | some i => i.icon | none => "🎯"
  icon ++ " **Perfect! Confirm your booking:**\n\n" ++
  sepLine ++ "\n\n" ++
  "👤 **Name:** " ++ optVal d.name ++ "\n" ++
  "📧 **Email:** " ++ optVal d.email ++ "\n" ++
  "📱 **Phone:** " ++ optVal d.phone ++ "\n" ++
  icon ++ " **Service:** " ++ optVal d.booking_type ++ "\n" ++
  "💰 **Price:** " ++ optVal d.pricing ++ "\n" ++
  "📅 **Date:** " ++ optVal d.date ++ "\n" ++
  "⏰ **Time:** " ++ optVal d.time ++ "\n\n" ++
  sepLine ++ "\n\n" ++
  "✅ Reply **" ++ sq ++ "yes" ++ sq ++ "** to confirm\n" ++
  "❌ Reply **" ++ sq ++ "no" ++ sq ++ "** to restart"

/-- `BookingFlow.handle_booking_intent(user_message, booking_data,
awaiting_confirmation)`. -/
def handleBookingIntent (env : Env) (userMessage : String) (bookingData : Draft)
    (awaitingConf : Bool) : TurnResult :=
  if awaitingConf then handleConfirmation env userMessage bookingData
  else
    let ext0 := extractBookingInfo env.llmReply userMessage bookingData
    let v := validateExtracted env.today env.nowMicros ext0 bookingData
    if v.1 ≠ [] then
      { response := formatValidationErrors v.1, draft := bookingData, awaiting := false,
        complete := false, saveCalls := 0 }
    else
      let d1 := autoFillPricing (mergeDraft bookingData v.2)
      let missing := missingFields d1
      if missing ≠ [] then
        { response := askForMissingInfo env.today missing d1, draft := d1, awaiting := false,
          complete := false, saveCalls := 0 }
      else
        { response := generateConfirmationMessage d1, draft := d1, awaiting := true,
          complete := false, saveCalls := 0 }

/-! ### Intent detection (`ChatLogic.detect_intent`) -/

/-- One conversation turn, as the dicts in `st.session_state.messages`. -/
structure Turn where
  role : String
  content : String
deriving DecidableEq, Repr

/-- The non-booking trigger phrases of `detect_intent`. -/
def nonBookingPhrases : List String :=
  ["upload", "uploaded", "document", "pdf", "file",
   "hi", "hello", "hey", "good morning", "good afternoon",
   "how are you", "what can you do", "help",
   "thank", "thanks", "bye", "goodbye"]

/-- The widget-selection phrases of `detect_intent`. -/
def widgetPhrases : List String :=
  ["use selected date", "use selected time", "selected date", "selected time"]

/-- The explicit booking trigger phrases of `detect_intent`. -/
def bookingKeywordList : List String :=
  ["book a", "make a booking", "make an appointment",
   "schedule a", "reserve a", "i want to book",
   "i need to book", "i would like to book",
   "book appointment", "make reservation",
   "can i book", "can i schedule"]

/-- The booking-field question markers of the non-booking exception. -/
def bookingQuestionMarkers : List String :=
  ["your name", "your email", "your phone", "what date", "what time",
   "type of service", "confirm your booking", "is this correct"]

/-- The booking-progress markers of the context continuation check. -/
def bookingProgressMarkers : List String :=
  ["information collected so far", "your name?", "your email", "your phone",
   "what date", "what time", "type of service", "confirm your booking"]

/-- Python `conversation_history[-3:]`. -/
def lastThree (l : List Turn) : List Turn := l.drop (l.length - 3)

/-- `ChatLogic.detect_intent(user_message, conversation_history)`; returns
the source's literal labels `"booking"`, `"query"`, `"general"`. -/
def detectIntent (userMessage : String) (history : List Turn) : String :=
  let uml := pyStrip (pyLower userMessage)
  if containsAnyOf nonBookingPhrases uml then
    let recentA : Option String :=
      if history.isEmpty then none
      else
        match (lastThree history).reverse.find? (fun m => m.role = "assistant") with
        | some m => some (pyLower m.content)
        | none => none
    let inBookingFlow :=
      match recentA with
      | some r => containsAnyOf bookingQuestionMarkers r
      | none => false
    if inBookingFlow then "booking"
    else if uml = "hi" ∨ uml = "hello" ∨ uml = "hey" then "general"
    else "query"
  else if containsAnyOf widgetPhrases uml then "booking"
  else if containsAnyOf bookingKeywordList uml then "booking"
  else if ¬ history.isEmpty ∧ (lastThree history).any (fun m =>
      m.role = "assistant" ∧ containsAnyOf bookingProgressMarkers (pyLower m.content)) then
    "booking"
  else "query"

/-! ### Session reachability

`main.generate_response` threads `(booking_data, awaiting_confirmation)`
through `handle_booking_intent` turn by turn, starting from `({}, False)`;
the clear-chat button (and the `complete` flag) resets to `({}, False)`. -/

/-- The session states reachable through the booking state machine. -/
inductive ReachableSession : Draft → Bool → Prop where
  /-- the initial session `({}, False)` -/
  | init : ReachableSession emptyDraft false
  /-- one turn of `handle_booking_intent`, with arbitrary utterance, wall
  clock and collaborator behaviour -/
  | step (env : Env) (msg : String) (d : Draft) (a : Bool) :
      ReachableSession d a →
      ReachableSession (handleBookingIntent env msg d a).draft
        (handleBookingIntent env msg d a).awaiting
  /-- the UI reset to `({}, False)` -/
  | reset (d : Draft) (a : Bool) : ReachableSession d a → ReachableSession emptyDraft false

/-- The pricing invariant of the draft: `pricing` is present exactly when
`booking_type` is, and then holds the catalog-derived rendering. -/
def priceInv (d : Draft) : Prop :=
  (d.booking_type.isSome ↔ d.pricing.isSome) ∧
  ∀ bt, d.booking_type = some bt → d.pricing = some (renderPrice (servicePriceOf bt))

/-! ### Concrete sample inputs used by witnesses and counterexamples -/

/-- A fixed "today" for concrete evaluations: 2026-10-12. -/
def today0 : Nat := dateOrdinal 2026 10 12

/-- A sample environment: the database write succeeds with id `BK123`, the
confirmation email is sent, the LLM is never consulted. -/
def envOk : Env :=
  { today := today0, nowMicros := 0, llmReply := none,
    db := fun _ => Except.ok "BK123", emailSent := true }

/-- The sample environment with the LLM replying a non-catalog service name. -/
def envLLM : Env := { envOk with llmReply := some "Quantum Grooming" }

/-- A complete draft awaiting confirmation. -/
def draftFull : Draft :=
  { name := some "John Doe", email := some "john@example.com", phone := some "9876543210",
    booking_type := some "Consultation", date := some "2026-11-20", time := some "10:30",
    pricing := some "$80" }

/-! ### Helper lemmas -/

/-- Each extraction site is guarded by `'<field>' not in existing_data`, so a
field already present in the draft is never produced by extraction. -/
theorem extractInfoAdditive (llm : Option String) (msg : String) (d : Draft) :
    (d.email.isSome = true → (extractBookingInfo llm msg d).email = none) ∧
    (d.phone.isSome = true → (extractBookingInfo llm msg d).phone = none) ∧
    (d.date.isSome = true → (extractBookingInfo llm msg d).date = none) ∧
    (d.time.isSome = true → (extractBookingInfo llm msg d).time = none) ∧
    (d.name.isSome = true → (extractBookingInfo llm msg d).name = none) ∧
    (d.booking_type.isSome = true → (extractBookingInfo llm msg d).booking_type = none) := by
  unfold extractBookingInfo
  refine ⟨?_, ?_, ?_, ?_, ?_, ?_⟩ <;> intro h
  · cases hE : reFindall emailFindRE msg <;> simp [hE, h]
  · cases hE : reFindall phoneFindRE msg <;> simp [hE, h]
  · cases hE : reFindall dateFindRE msg <;> simp [hE, h]
  · cases hE : reFindall timeFindRE msg <;> simp [hE, h]
  · simp [h]
  · simp [h]

/-- Validation only writes back the canonicalised `time`; every other key of
`extracted_data` is untouched. -/
theorem validateSndPreserves (t n : Nat) (e : Extracted) (d : Draft) :
    ((validateExtracted t n e d).2).booking_type = e.booking_type ∧
    ((validateExtracted t n e d).2).email = e.email ∧
    ((validateExtracted t n e d).2).phone = e.phone ∧
    ((validateExtracted t n e d).2).date = e.date ∧
    ((validateExtracted t n e d).2).name = e.name := by
  unfold validateExtracted
  cases he : e.time with
  | none => simp [he]
  | some tv => cases hr : (validateTimeField t n tv e.date d.date).2 <;> simp [he, hr]

/-- The empty draft satisfies the pricing invariant. -/
theorem priceInvEmpty : priceInv emptyDraft := by
  constructor
  · simp [emptyDraft]
  · intro bt h
    simp [emptyDraft] at h

/-- Merging an additive extraction and running the pricing auto-fill
preserves the pricing invariant. -/
theorem priceInvMerge (d : Draft) (e : Extracted)
    (hInv : priceInv d) (hAdd : d.booking_type.isSome = true → e.booking_type = none) :
    priceInv (autoFillPricing (mergeDraft d e)) := by
  have hmp : (mergeDraft d e).pricing = d.pricing := rfl
  cases hd : d.booking_type with
  | some bt =>
    have he : e.booking_type = none := hAdd (by simp [hd])
    have hm : (mergeDraft d e).booking_type = some bt := by simp [mergeDraft, he, hd]
    have hpr : d.pricing = some (renderPrice (servicePriceOf bt)) := hInv.2 bt hd
    unfold autoFillPricing
    rw [hm, hmp, hpr]
    simp only [Option.isSome_some, if_true]
    refine ⟨?_, ?_⟩
    · rw [hm, hmp, hpr]; simp
    · intro bt' hbt'
      rw [hm] at hbt'
      cases hbt'
      rw [hmp, hpr]
  | none =>
    have hp : d.pricing = none := by
      cases hpc : d.pricing with
      | none => rfl
      | some v =>
        have := hInv.1.mpr (by simp [hpc])
        rw [hd] at this
        simp at this
    cases he : e.booking_type with
    | none =>
      have hm : (mergeDraft d e).booking_type = none := by simp [mergeDraft, he, hd]
      unfold autoFillPricing
      rw [hm]
      refine ⟨?_, ?_⟩
      · rw [hm, hmp, hp]
      · intro bt' hbt'
        rw [hm] at hbt'
        cases hbt'
    | some b =>
      have hm : (mergeDraft d e).booking_type = some b := by simp [mergeDraft, he, hd]
      unfold autoFillPricing
      rw [hm, hmp, hp]
      simp only [Option.isSome_none, Bool.false_eq_true, if_false]
      refine ⟨by simp [hm], ?_⟩
      intro bt' hbt'
      simp only [hm] at hbt'
      cases hbt'
      rfl

/-- `_handle_confirmation` either clears the draft or returns it unchanged. -/
theorem handleConfirmationDraftCases (env : Env) (u : String) (d : Draft) :
    (handleConfirmation env u d).draft = emptyDraft ∨ (handleConfirmation env u d).draft = d := by
  unfold handleConfirmation
  by_cases h1 : containsAnyOf affirmativeWords (pyStrip (pyLower u)) = true
  · simp only [h1, if_true]
    cases hs : (saveBooking env.db d).1 <;> simp [hs]
  · simp only [Bool.not_eq_true] at h1
    simp only [h1, Bool.false_eq_true, if_false]
    by_cases h2 : containsAnyOf negativeWords (pyStrip (pyLower u)) = true
    · simp [h2]
    · simp only [Bool.not_eq_true] at h2
      simp [h2]

/-- One turn of `handle_booking_intent` preserves the pricing invariant. -/
theorem handleBookingPreservesPriceInv (env : Env) (msg : String) (d : Draft) (a : Bool)
    (h : priceInv d) : priceInv (handleBookingIntent env msg d a).draft := by
  cases a with
  | true =>
    have hc : handleBookingIntent env msg d true = handleConfirmation env msg d := rfl
    rw [hc]
    rcases handleConfirmationDraftCases env msg d with hd | hd <;> rw [hd]
    · exact priceInvEmpty
    · exact h
  | false =>
    unfold handleBookingIntent
    simp only [Bool.false_eq_true, if_false]
    by_cases hv :
        (validateExtracted env.today env.nowMicros
          (extractBookingInfo env.llmReply msg d) d).1 = []
    · simp only [hv, ne_eq, not_true_eq_false, if_false]
      have hAdd : d.booking_type.isSome = true →
          ((validateExtracted env.today env.nowMicros
            (extractBookingInfo env.llmReply msg d) d).2).booking_type = none := by
        intro hb
        rw [(validateSndPreserves env.today env.nowMicros
          (extractBookingInfo env.llmReply msg d) d).1]
        exact (extractInfoAdditive env.llmReply msg d).2.2.2.2.2 hb
      have hm := priceInvMerge d _ h hAdd
      split <;> exact hm
    · simp only [ne_eq, hv, not_false_eq_true, if_true]
      exact h

/-! ### Claims -/

/-- C1 (counterexample). The claim says that in the CONFIRMING state any
utterance other than `"yes"` and the negative keywords leaves the draft
unchanged, the state in CONFIRMING, and persistence uninvoked.  The utterance
`"sure"` is not `"yes"` and matches no negative keyword, yet the affirmative
substring check fires: persistence is invoked and the draft is cleared. -/
theorem confirmOtherUtteranceCex :
    ("sure" ≠ "yes") ∧
    containsAnyOf negativeWords (pyStrip (pyLower "sure")) = false ∧
    (handleConfirmation envOk "sure" draftFull).saveCalls = 1 ∧
    (handleConfirmation envOk "sure" draftFull).draft ≠ draftFull ∧
    (handleConfirmation envOk "sure" draftFull).awaiting = false := by
  refine ⟨by decide, by decide, ?_, ?_, ?_⟩ <;> decide

/-- C1 (amended). In the CONFIRMING state: for the utterance `"yes"`
persistence is invoked exactly once, and if it succeeds the returned session
has an empty draft and `awaiting_confirmation` false; for any utterance
matching a negative keyword **and no affirmative keyword** the draft is
cleared, the state returns to COLLECTING and the restart prompt is emitted
without invoking persistence; for any utterance matching **neither keyword
set** the draft is returned unchanged, the state remains CONFIRMING and
persistence is not invoked. -/
theorem confirmTransitions (env : Env) (d : Draft) :
    ((handleConfirmation env "yes" d).saveCalls = 1 ∧
      ((saveBooking env.db d).1 = true →
        (handleConfirmation env "yes" d).draft = emptyDraft ∧
        (handleConfirmation env "yes" d).awaiting = false)) ∧
    (∀ u : String,
      containsAnyOf affirmativeWords (pyStrip (pyLower u)) = false →
      containsAnyOf negativeWords (pyStrip (pyLower u)) = true →
      handleConfirmation env u d =
        { response := restartResponse, draft := emptyDraft, awaiting := false,
          complete := false, saveCalls := 0 }) ∧
    (∀ u : String,
      containsAnyOf affirmativeWords (pyStrip (pyLower u)) = false →
      containsAnyOf negativeWords (pyStrip (pyLower u)) = false →
      handleConfirmation env u d =
        { response := repromptResponse, draft := d, awaiting := true,
          complete := false, saveCalls := 0 }) := by
  have hyes : containsAnyOf affirmativeWords (pyStrip (pyLower "yes")) = true := by decide
  refine ⟨⟨?_, ?_⟩, ?_, ?_⟩
  · unfold handleConfirmation
    simp only [hyes, if_true]
    cases hs : (saveBooking env.db d).1 <;> simp [hs]
  · intro hsucc
    unfold handleConfirmation
    simp [hyes, hsucc]
  · intro u h1 h2
    unfold handleConfirmation
    simp [h1, h2]
  · intro u h1 h2
    unfold handleConfirmation
    simp [h1, h2]

/-- C1 (witness). The amended theorem applied to the sample environment and
the complete draft: `"yes"` saves once and clears the session, `"cancel"`
restarts, `"maybe"` re-prompts leaving the draft alone. -/
theorem confirmTransitionsWitness :
    ((handleConfirmation envOk "yes" draftFull).saveCalls = 1 ∧
      (handleConfirmation envOk "yes" draftFull).draft = emptyDraft ∧
      (handleConfirmation envOk "yes" draftFull).awaiting = false) ∧
    handleConfirmation envOk "cancel" draftFull =
      { response := restartResponse, draft := emptyDraft, awaiting := false,
        complete := false, saveCalls := 0 } ∧
    handleConfirmation envOk "maybe" draftFull =
      { response := repromptResponse, draft := draftFull, awaiting := true,
        complete := false, saveCalls := 0 } :=
  ⟨⟨(confirmTransitions envOk draftFull).1.1,
    (confirmTransitions envOk draftFull).1.2 (by decide)⟩,
   (confirmTransitions envOk draftFull).2.1 "cancel" (by decide) (by decide),
   (confirmTransitions envOk draftFull).2.2 "maybe" (by decide) (by decide)⟩

/-- C10. In the CONFIRMING state the affirmative set is checked first, by
substring: every utterance containing an affirmative keyword — even one also
containing a negative keyword, such as `"not okay"` (which contains `"ok"`
and `"no"`) — attempts persistence, and the cancellation branch (restart
response, zero saves, `complete = false`) is never reached. -/
theorem affirmativeCheckedFirst (env : Env) (u : String) (d : Draft)
    (h : containsAnyOf affirmativeWords (pyStrip (pyLower u)) = true) :
    (handleConfirmation env u d).saveCalls = 1 ∧
    (handleConfirmation env u d).complete = true ∧
    handleConfirmation env u d ≠
      { response := restartResponse, draft := emptyDraft, awaiting := false,
        complete := false, saveCalls := 0 } := by
  have hcalls : (handleConfirmation env u d).saveCalls = 1 := by
    unfold handleConfirmation
    simp only [h, if_true]
    cases hs : (saveBooking env.db d).1 <;> simp [hs]
  have hcomp : (handleConfirmation env u d).complete = true := by
    unfold handleConfirmation
    simp only [h, if_true]
    cases hs : (saveBooking env.db d).1 <;> simp [hs]
  refine ⟨hcalls, hcomp, ?_⟩
  intro heq
  rw [heq] at hcalls
  simp at hcalls

/-- C10 (witness). `"not okay"` contains the negative keyword `"no"`, yet the
affirmative substring `"ok"` wins: persistence is attempted. -/
theorem affirmativeCheckedFirstWitness :
    containsAnyOf negativeWords (pyStrip (pyLower "not okay")) = true ∧
    (handleConfirmation envOk "not okay" draftFull).saveCalls = 1 ∧
    (handleConfirmation envOk "not okay" draftFull).complete = true :=
  ⟨by decide,
   (affirmativeCheckedFirst envOk "not okay" draftFull (by decide)).1,
   (affirmativeCheckedFirst envOk "not okay" draftFull (by decide)).2.1⟩

/-- C2. In the COLLECTING state, whenever validation of the extracted fields
produces at least one error, the turn returns the draft exactly as given (no
field merged), stays in COLLECTING, and the response is the bulleted list of
every collected error followed by a request for the first failing field by
name (underscores rendered as spaces). -/
theorem collectValidationFailure (env : Env) (msg : String) (d : Draft)
    (f e : String) (rest : List (String × String)) (ext : Extracted)
    (h : validateExtracted env.today env.nowMicros
      (extractBookingInfo env.llmReply msg d) d = ((f, e) :: rest, ext)) :
    handleBookingIntent env msg d false =
      { response :=
          "⚠️ I found some issues:\n\n" ++
          String.join (((f, e) :: rest).map (fun p =>
            "• **" ++ pyTitle (pyReplace p.1 "_" " ") ++ "**: " ++ p.2 ++ "\n")) ++
          "\nPlease provide the correct " ++ pyReplace f "_" " " ++ ".",
        draft := d, awaiting := false, complete := false, saveCalls := 0 } := by
  unfold handleBookingIntent
  simp [h, formatValidationErrors]

/-- C2 (witness). The utterance `"2020-01-01"` (a past date) on 2026-10-12
with an empty draft: the date error is collected, the draft stays empty, the
state stays COLLECTING, and the response re-asks for the date. -/
theorem collectValidationFailureWitness :
    handleBookingIntent envOk "2020-01-01" emptyDraft false =
      { response :=
          "⚠️ I found some issues:\n\n" ++
          String.join ([("date", sq ++ "2020-01-01" ++ sq ++
            " is 2476 day(s) in the past. Choose a future date")].map (fun p =>
              "• **" ++ pyTitle (pyReplace p.1 "_" " ") ++ "**: " ++ p.2 ++ "\n")) ++
          "\nPlease provide the correct " ++ pyReplace "date" "_" " " ++ ".",
        draft := emptyDraft, awaiting := false, complete := false, saveCalls := 0 } :=
  collectValidationFailure envOk "2020-01-01" emptyDraft "date"
    (sq ++ "2020-01-01" ++ sq ++ " is 2476 day(s) in the past. Choose a future date") []
    { date := some "2020-01-01" } (by decide)

/-- C3. Extraction is additive: the mapping returned by
`_extract_booking_info` never contains a key already present among the known
fields, for each of email, phone, date, time, name and booking type
(`service_type`) individually — so re-extraction cannot overwrite a draft
value. -/
theorem extractionAdditive (llm : Option String) (msg : String) (d : Draft) :
    (d.email.isSome = true → (extractBookingInfo llm msg d).email = none) ∧
    (d.phone.isSome = true → (extractBookingInfo llm msg d).phone = none) ∧
    (d.date.isSome = true → (extractBookingInfo llm msg d).date = none) ∧
    (d.time.isSome = true → (extractBookingInfo llm msg d).time = none) ∧
    (d.name.isSome = true → (extractBookingInfo llm msg d).name = none) ∧
    (d.booking_type.isSome = true → (extractBookingInfo llm msg d).booking_type = none) :=
  extractInfoAdditive llm msg d

/-- C3 (witness). An utterance carrying every extractable field, against a
draft that already holds them all: extraction returns the empty mapping. -/
theorem extractionAdditiveWitness :
    extractBookingInfo none
      "John Doe john@example.com 9876543210 2026-11-20 10:30 doctor" draftFull =
      ({} : Extracted) :=
  have h := extractionAdditive none
    "John Doe john@example.com 9876543210 2026-11-20 10:30 doctor" draftFull
  by
    have h1 := h.1 (by decide)
    have h2 := h.2.1 (by decide)
    have h3 := h.2.2.1 (by decide)
    have h4 := h.2.2.2.1 (by decide)
    have h5 := h.2.2.2.2.1 (by decide)
    have h6 := h.2.2.2.2.2 (by decide)
    cases he : extractBookingInfo none
      "John Doe john@example.com 9876543210 2026-11-20 10:30 doctor" draftFull
    rw [he] at h1 h2 h3 h4 h5 h6
    simp_all

/-- Reduction of the date branch when the value parses. -/
theorem validateDateFieldParsed (today y m d : Nat) (s : String)
    (hp : parseDateYMD s = some (y, m, d)) :
    validateDateField today s =
      if dateOrdinal y m d > today + 365 then
        some (sq ++ s ++ sq ++ " is too far ahead. Book within the next year")
      else if dateOrdinal y m d < today then
        some (sq ++ s ++ sq ++ " is " ++ toString (today - dateOrdinal y m d) ++
          " day(s) in the past. Choose a future date")
      else none := by
  unfold validateDateField
  rw [hp]

/-- Reduction of the date branch when the value does not parse. -/
theorem validateDateFieldUnparsed (today : Nat) (s : String)
    (hp : parseDateYMD s = none) :
    validateDateField today s =
      some (sq ++ s ++ sq ++ " is invalid. Use YYYY-MM-DD (e.g., 2025-01-25)") := by
  unfold validateDateField
  rw [hp]

/-- C4. Date validation passes exactly when the value parses under
`%Y-%m-%d` and lies between today and today + 365 days inclusive; a past date
fails with an error reporting the number of days in the past, a date beyond a
year fails with the too-far-ahead error, and an unparsable string fails with
the format error. -/
theorem dateValidationRules (today : Nat) (s : String) :
    (validateDateField today s = none ↔
      ∃ y m d, parseDateYMD s = some (y, m, d) ∧
        today ≤ dateOrdinal y m d ∧ dateOrdinal y m d ≤ today + 365) ∧
    (∀ y m d, parseDateYMD s = some (y, m, d) → dateOrdinal y m d < today →
      validateDateField today s =
        some (sq ++ s ++ sq ++ " is " ++ toString (today - dateOrdinal y m d) ++
          " day(s) in the past. Choose a future date")) ∧
    (∀ y m d, parseDateYMD s = some (y, m, d) → today + 365 < dateOrdinal y m d →
      validateDateField today s =
        some (sq ++ s ++ sq ++ " is too far ahead. Book within the next year")) ∧
    (parseDateYMD s = none →
      validateDateField today s =
        some (sq ++ s ++ sq ++ " is invalid. Use YYYY-MM-DD (e.g., 2025-01-25)")) := by
  refine ⟨⟨?_, ?_⟩, ?_, ?_, ?_⟩
  · intro h
    cases hp : parseDateYMD s with
    | none => rw [validateDateFieldUnparsed today s hp] at h; cases h
    | some ymd =>
      obtain ⟨y, m, d⟩ := ymd
      rw [validateDateFieldParsed today y m d s hp] at h
      by_cases h1 : dateOrdinal y m d > today + 365
      · rw [if_pos h1] at h; cases h
      · rw [if_neg h1] at h
        by_cases h2 : dateOrdinal y m d < today
        · rw [if_pos h2] at h; cases h
        · exact ⟨y, m, d, rfl, by omega, by omega⟩
  · rintro ⟨y, m, d, hp, hge, hle⟩
    rw [validateDateFieldParsed today y m d s hp, if_neg (by omega), if_neg (by omega)]
  · intro y m d hp hlt
    rw [validateDateFieldParsed today y m d s hp, if_neg (by omega), if_pos hlt]
  · intro y m d hp hfar
    rw [validateDateFieldParsed today y m d s hp, if_pos (by omega)]
  · intro hp
    exact validateDateFieldUnparsed today s hp

/-- C4 (witness). On 2026-10-12: `"2020-01-01"` fails as 2476 days in the
past, `"2099-01-01"` fails as too far ahead, tomorrow (`"2026-10-13"`)
passes, and `"not-a-date"` fails with the format error. -/
theorem dateValidationRulesWitness :
    validateDateField today0 "2020-01-01" =
      some (sq ++ "2020-01-01" ++ sq ++
        " is 2476 day(s) in the past. Choose a future date") ∧
    validateDateField today0 "2099-01-01" =
      some (sq ++ "2099-01-01" ++ sq ++ " is too far ahead. Book within the next year") ∧
    validateDateField today0 "2026-10-13" = none ∧
    validateDateField today0 "not-a-date" =
      some (sq ++ "not-a-date" ++ sq ++ " is invalid. Use YYYY-MM-DD (e.g., 2025-01-25)") :=
  ⟨by
    have h := (dateValidationRules today0 "2020-01-01").2.1 2020 1 1 (by decide) (by decide)
    simpa using h,
   (dateValidationRules today0 "2099-01-01").2.2.1 2099 1 1 (by decide) (by decide),
   (dateValidationRules today0 "2026-10-13").1.mpr
     ⟨2026, 10, 13, by decide, by decide, by decide⟩,
   (dateValidationRules today0 "not-a-date").2.2.2 (by decide)⟩

/-- C5 (counterexample). The claim says `"9:5"` is rejected by an HH:MM shape
check before the range checks.  The code has no such shape check beyond the
presence of a colon: `int("9")` and `int("5")` parse, the ranges pass, and
the value is accepted and canonicalised to `"09:05"` with no error. -/
theorem timeShapeCheckCex :
    validateTimeField today0 0 "9:5" none none = (none, some "09:05") := by decide

/-- C5 (amended). `"25:00"` fails with the hour-range error; `"9:5"` is
**accepted** — components are parsed by `int` conversion, so unpadded digits
pass — and, like every passing value, is reformatted to zero-padded canonical
HH:MM. -/
theorem timeValidationRules :
    (validateTimeField today0 0 "25:00" none none =
      (some (sq ++ "25:00" ++ sq ++ " has invalid hours. Use 00-23"), none)) ∧
    (validateTimeField today0 0 "9:5" none none = (none, some "09:05")) ∧
    (∀ (t n : Nat) (s : String) (h mi : Int),
      strContains s ":" = true →
      pyInt (((pySplitOnChar ':' s).get? 0).getD "") = some h →
      pyInt (((pySplitOnChar ':' s).get? 1).getD "") = some mi →
      0 ≤ h → h ≤ 23 → 0 ≤ mi → mi ≤ 59 →
      validateTimeField t n s none none =
        (none, some (pad2 h.toNat ++ ":" ++ pad2 mi.toNat))) := by
  refine ⟨by decide, by decide, ?_⟩
  intro t n s h mi hc h0 h1 hh0 hh23 hm0 hm59
  unfold validateTimeField
  simp only [hc, if_true, h0, h1]
  rw [if_neg (by omega), if_neg (by omega)]
  simp

/-- C5 (witness). The general reformat clause applied to `"14:3"`: accepted
and canonicalised to `"14:03"`. -/
theorem timeValidationRulesWitness :
    validateTimeField today0 0 "14:3" none none = (none, some "14:03") :=
  timeValidationRules.2.2 today0 0 "14:3" 14 3 (by decide) (by decide) (by decide)
    (by decide) (by decide) (by decide) (by decide)

/-- C6 (counterexample). The claim says a failing phone error shows the
stripped value.  The code interpolates `extracted_data['phone']` — the
original value: for `"(123) 456-789"` (9 digits after stripping) the message
shows the parenthesised original, not the stripped `"123456789"`. -/
theorem phoneMessageCex :
    validatePhoneField "(123) 456-789" =
      some (sq ++ "(123) 456-789" ++ sq ++ " is not valid. Provide 10-15 digits") ∧
    stripPhone "(123) 456-789" = "123456789" ∧
    (sq ++ "(123) 456-789" ++ sq ++ " is not valid. Provide 10-15 digits") ≠
      (sq ++ "123456789" ++ sq ++ " is not valid. Provide 10-15 digits") := by
  refine ⟨by decide, by decide, by decide⟩

/-- C6 (amended). Phone validation strips whitespace, hyphens, parentheses
and plus signs (all occurrences) and succeeds exactly when the remainder is
all digits of length 10–15; on failure the error message shows the
**original** value as given. -/
theorem phoneValidationRules (v : String) :
    (validatePhoneField v = none ↔
      pyIsDigitStr (stripPhone v) = true ∧
        10 ≤ (stripPhone v).length ∧ (stripPhone v).length ≤ 15) ∧
    (validatePhoneField v ≠ none →
      validatePhoneField v =
        some (sq ++ v ++ sq ++ " is not valid. Provide 10-15 digits")) := by
  unfold validatePhoneField
  by_cases h : ¬ pyIsDigitStr (stripPhone v) = true ∨
      (stripPhone v).length < 10 ∨ (stripPhone v).length > 15
  · rw [if_pos h]
    refine ⟨?_, fun _ => rfl⟩
    constructor
    · intro hc; cases hc
    · intro ⟨h1, h2, h3⟩
      rcases h with h | h | h
      · exact absurd h1 h
      · omega
      · omega
  · rw [if_neg h]
    push_neg at h
    obtain ⟨h1, h2, h3⟩ := h
    exact ⟨⟨fun _ => ⟨h1, h2, h3⟩, fun _ => rfl⟩, fun hc => absurd rfl hc⟩

/-- C6 (witness). The amended rules applied concretely: a 9-digit value fails
showing the original, a well-formed 10-digit value passes. -/
theorem phoneValidationRulesWitness :
    validatePhoneField "(123) 456-789" =
      some (sq ++ "(123) 456-789" ++ sq ++ " is not valid. Provide 10-15 digits") ∧
    validatePhoneField "123-456-7890" = none :=
  ⟨(phoneValidationRules "(123) 456-789").2 (by decide),
   (phoneValidationRules "123-456-7890").1.mpr ⟨by decide, by decide, by decide⟩⟩

/-- C7. In every session state reachable through the booking state machine
(starting from the empty draft, stepping by `handle_booking_intent` with
arbitrary utterances, clock values and collaborator behaviour, with UI
resets), the derived `pricing` field is present exactly when `booking_type`
is, and then equals the catalog-derived rendering fixed at the turn
`booking_type` was merged: `"$<price>"` for a positive catalog price,
`"Free"` for zero (or for a service missing from the catalog). -/
theorem pricingInvariantReachable (d : Draft) (a : Bool) (h : ReachableSession d a) :
    priceInv d := by
  induction h with
  | init => exact priceInvEmpty
  | step env msg d' a' _ ih => exact handleBookingPreservesPriceInv env msg d' a' ih
  | reset d' a' _ _ => exact priceInvEmpty

/-- C7 (witness). After one turn on the utterance `"doctor"` from the empty
session, the invariant yields the catalog-derived price `$100` next to the
merged `Doctor Appointment` service type. -/
theorem pricingInvariantReachableWitness :
    ((handleBookingIntent envOk "doctor" emptyDraft false).draft.booking_type.isSome ↔
      (handleBookingIntent envOk "doctor" emptyDraft false).draft.pricing.isSome) ∧
    (handleBookingIntent envOk "doctor" emptyDraft false).draft.pricing = some "$100" := by
  have h := pricingInvariantReachable _ _
    (ReachableSession.step envOk "doctor" emptyDraft false ReachableSession.init)
  refine ⟨h.1, ?_⟩
  have hb : (handleBookingIntent envOk "doctor" emptyDraft false).draft.booking_type =
      some "Doctor Appointment" := by decide
  have := h.2 "Doctor Appointment" hb
  simpa using this

/-- C8. Intent classification: `"hi"` with empty history is labelled
`"general"` (the source's label for general chat), `"book a doctor
appointment"` is labelled `"booking"`, and `"john@example.com"` right after
an assistant turn asking for the email address is labelled `"booking"` — the
conversation-context override of a reply that does not look like booking. -/
theorem intentClassificationExamples :
    detectIntent "hi" [] = "general" ∧
    detectIntent "book a doctor appointment" [] = "booking" ∧
    detectIntent "john@example.com"
      [{ role := "assistant", content := "What" ++ sq ++ "s your email address?" }] =
      "booking" := by
  refine ⟨by decide, by decide, by decide⟩

/-- An accepted LLM extraction is never the empty string (the truthiness
check `if result` of `_extract_with_llm`). -/
theorem extractWithLLMNonempty (l : Option String) (v : String)
    (h : extractWithLLM l = some v) : v ≠ "" := by
  unfold extractWithLLM at h
  cases l with
  | none => cases h
  | some content =>
    dsimp only at h
    split at h
    · rename_i hc
      cases h
      exact hc.1
    · cases h

/-- C9. When no service keyword matches the utterance and the LLM fallback
reply post-processes to any accepted string `v` (non-empty, under 100
characters, not `NOT_FOUND`) that names none of the nine catalog services,
`v` is still merged into the draft as the service type, and the catalog
lookup defaults its price to 0, so the derived price is `"Free"`: the draft
can hold a service type with no `ServiceCatalog` entry and a price not taken
from the table. -/
theorem unknownServiceFreePrice (env : Env) (msg : String) (v : String) (d : Draft)
    (hkw : serviceKeywords.find? (fun entry =>
      entry.2.any (fun k => strContains (pyStrip (pyLower msg)) k)) = none)
    (hllm : extractWithLLM env.llmReply = some v)
    (hcat : servicePricing.lookup v = none)
    (hbt : d.booking_type = none) (hpr : d.pricing = none)
    (hval : (validateExtracted env.today env.nowMicros
      (extractBookingInfo env.llmReply msg d) d).1 = []) :
    (handleBookingIntent env msg d false).draft.booking_type = some v ∧
    (handleBookingIntent env msg d false).draft.pricing = some "Free" := by
  have hvne : v ≠ "" := extractWithLLMNonempty env.llmReply v hllm
  have hebt : (extractBookingInfo env.llmReply msg d).booking_type = some v := by
    unfold extractBookingInfo extractBookingType
    simp [hbt, hkw, hllm, hvne]
  have hvbt : ((validateExtracted env.today env.nowMicros
      (extractBookingInfo env.llmReply msg d) d).2).booking_type = some v := by
    rw [(validateSndPreserves env.today env.nowMicros
      (extractBookingInfo env.llmReply msg d) d).1, hebt]
  have hd1 : ∀ e : Extracted, e.booking_type = some v →
      (autoFillPricing (mergeDraft d e)).booking_type = some v ∧
      (autoFillPricing (mergeDraft d e)).pricing = some "Free" := by
    intro e he
    have hm : (mergeDraft d e).booking_type = some v := by simp [mergeDraft, he]
    have hmp : (mergeDraft d e).pricing = d.pricing := rfl
    have hauto : autoFillPricing (mergeDraft d e) =
        { mergeDraft d e with pricing := some (renderPrice (servicePriceOf v)) } := by
      unfold autoFillPricing
      rw [hm]
      simp [hmp, hpr]
      exact hm.symm
    rw [hauto]
    refine ⟨hm, ?_⟩
    show some (renderPrice (servicePriceOf v)) = some "Free"
    simp [servicePriceOf, hcat, renderPrice]
  unfold handleBookingIntent
  simp only [Bool.false_eq_true, if_false, hval, ne_eq, not_true_eq_false, if_false]
  have h1 := hd1 _ hvbt
  split <;> exact h1

/-- C9 (witness). The utterance `"zzz"` (no keyword match) with the LLM
replying `" Quantum Grooming "`: the post-processed reply is merged as the
service type — absent from the catalog — and the price derives to `"Free"`. -/
theorem unknownServiceFreePriceWitness :
    servicePricing.lookup "Quantum Grooming" = none ∧
    (handleBookingIntent envLLM "zzz" emptyDraft false).draft.booking_type =
      some "Quantum Grooming" ∧
    (handleBookingIntent envLLM "zzz" emptyDraft false).draft.pricing = some "Free" :=
  ⟨by decide,
   (unknownServiceFreePrice envLLM "zzz" "Quantum Grooming" emptyDraft
     (by decide) (by decide) (by decide) (by decide) (by decide) (by decide)).1,
   (unknownServiceFreePrice envLLM "zzz" "Quantum Grooming" emptyDraft
     (by decide) (by decide) (by decide) (by decide) (by decide) (by decide)).2⟩

end BookingAssistant
